import Mathlib

/-! Verification of the single-character role-play engine in GPT_RP.py.

The Python module is embedded shallowly:

* Python strings are lists of characters (abbrev Str below).  The Python
  lowering str.lower is modelled per character with Char.toLower, which
  lowers the ASCII range; every keyword of the mood classifier is made of
  ASCII lowercase letters and CJK characters, all of which are fixed
  points of full Unicode lowering, so the model agrees with Python on
  every membership decision the classifier makes.
* Python dicts with string keys are association lists looked up front to
  back (keys of a Python dict are unique, so first match is the match).
* str.format is modelled as a single left-to-right scan of the template
  (fmtGo): literal text is copied, the name and msg fields are
  substituted, any other field name is a FormatError.unknownField, and an
  unbalanced brace is FormatError.badBrace.  Conversion and width
  suffixes of a field are not modelled: the templates of this engine use
  bare field names, and a field containing such a suffix is simply an
  unknown field here.
* Fallible Python code (raising exceptions) returns Except.
* The loader is modelled twice.  from_yaml_py (with SoloEngine.initPy) is
  SoloEngine.from_yaml as executed: after the required-key checks the
  name value and the speech_patterns value are stored unchecked, because
  Python does not enforce the type annotations on lines 35 and 37.
  from_yaml (with SoloEngine.initChecked and strDictOf) is its
  restriction to well-typed configurations and is what feeds the typed
  respond pipeline; from_yaml_typed_iff proves that the restriction is
  exactly that.
* The wall-clock timestamp attached by SoloEngine.respond is omitted from
  the model: it is the only impure output and no claim mentions it.
-/

set_option autoImplicit false

/-- A Python string, as its list of characters. -/
abbrev Str := List Char

/-- Shorthand turning a Lean string literal into the Str model. -/
def str (s : String) : Str := s.toList

/-- Model of Python str.lower, per character (see the module comment). -/
def pyLower (s : Str) : Str := s.map Char.toLower

/-- Does the string start with the given pattern? -/
def startsWithStr : Str → Str → Bool
  | [], _ => true
  | _ :: _, [] => false
  | c :: p, d :: s => c == d && startsWithStr p s

/-- Model of Python substring containment (pat in s). -/
def containsStr (pat : Str) : Str → Bool
  | [] => startsWithStr pat []
  | s@(_ :: rest) => startsWithStr pat s || containsStr pat rest

/-- The anger keyword tuple of SoloEngine._detect_mood. -/
def angerKeywords : List Str := [str "angry", str "mad", str "怒", str "生氣"]

/-- The happiness keyword tuple of SoloEngine._detect_mood. -/
def happyKeywords : List Str := [str "happy", str "love", str "開心", str "喜"]

/-- SoloEngine._detect_mood: lowercase the message, return "angry" if any
anger keyword occurs in it, else "happy" if any happiness keyword occurs,
else "neutral". -/
def detect_mood (msg : Str) : Str :=
  let low := pyLower msg
  if angerKeywords.any (fun x => containsStr x low) then str "angry"
  else if happyKeywords.any (fun x => containsStr x low) then str "happy"
  else str "neutral"

/-- Python dict.get on a string-keyed dict: first entry with the key. -/
def dictGet : List (Str × Str) → Str → Option Str
  | [], _ => none
  | (k, v) :: rest, key => if k = key then some v else dictGet rest key

/-- Python (a or b) where a is an optional string: b when a is None or the
empty string (both falsy), else the string held by a. -/
def pyOrStr : Option Str → Str → Str
  | none, b => b
  | some s, b => if s = [] then b else s

/-- The template chosen on line 64 of GPT_RP.py:
templates.get(mood) or templates.get("neutral", default), where default
is the literal pattern holding just the msg field. -/
def selectTemplate (tmpls : List (Str × Str)) (mood : Str) : Str :=
  pyOrStr (dictGet tmpls mood) ((dictGet tmpls (str "neutral")).getD (str "{msg}"))

/-- Failure of str.format on the two-field keyword set of this engine. -/
inductive FormatError where
  | unknownField (field : Str)
  | badBrace
deriving DecidableEq, Repr

/-- One scan step state of str.format: none = copying literal text,
some acc = inside a replacement field whose name (reversed) is acc. -/
def fmtGo (name msg : Str) : Option Str → Str → Except FormatError Str
  | none, [] => .ok []
  | none, '{' :: '{' :: rest => (fmtGo name msg none rest).map (fun t => '{' :: t)
  | none, '}' :: '}' :: rest => (fmtGo name msg none rest).map (fun t => '}' :: t)
  | none, '{' :: rest => fmtGo name msg (some []) rest
  | none, '}' :: _ => .error .badBrace
  | none, c :: rest => (fmtGo name msg none rest).map (fun t => c :: t)
  | some _, [] => .error .badBrace
  | some acc, '}' :: rest =>
    if acc.reverse = str "name" then (fmtGo name msg none rest).map (fun t => name ++ t)
    else if acc.reverse = str "msg" then (fmtGo name msg none rest).map (fun t => msg ++ t)
    else .error (.unknownField acc.reverse)
  | some acc, c :: rest => fmtGo name msg (some (c :: acc)) rest

/-- Model of template.format(name=name, msg=msg) in SoloEngine.respond. -/
def pyFormat (tmpl name msg : Str) : Except FormatError Str :=
  fmtGo name msg none tmpl

/-- A parsed fragment of a template: a literal character, the name field,
or the msg field. -/
inductive Piece where
  | lit (c : Char)
  | pname
  | pmsg
deriving DecidableEq, Repr

/-- Template parsing alone (no substitution), same scan as fmtGo. -/
def parseGo : Option Str → Str → Except FormatError (List Piece)
  | none, [] => .ok []
  | none, '{' :: '{' :: rest => (parseGo none rest).map (fun ps => .lit '{' :: ps)
  | none, '}' :: '}' :: rest => (parseGo none rest).map (fun ps => .lit '}' :: ps)
  | none, '{' :: rest => parseGo (some []) rest
  | none, '}' :: _ => .error .badBrace
  | none, c :: rest => (parseGo none rest).map (fun ps => .lit c :: ps)
  | some _, [] => .error .badBrace
  | some acc, '}' :: rest =>
    if acc.reverse = str "name" then (parseGo none rest).map (fun ps => .pname :: ps)
    else if acc.reverse = str "msg" then (parseGo none rest).map (fun ps => .pmsg :: ps)
    else .error (.unknownField acc.reverse)
  | some acc, c :: rest => parseGo (some (c :: acc)) rest

/-- Parse a whole template into pieces. -/
def parseTemplate (tmpl : Str) : Except FormatError (List Piece) :=
  parseGo none tmpl

/-- Substitute name and msg into parsed pieces, splicing both verbatim. -/
def renderPieces (name msg : Str) : List Piece → Str
  | [] => []
  | .lit c :: ps => c :: renderPieces name msg ps
  | .pname :: ps => name ++ renderPieces name msg ps
  | .pmsg :: ps => msg ++ renderPieces name msg ps

/-- The reply payload of SoloEngine.respond, without the wall-clock
timestamp (see the module comment). -/
structure Reply where
  reply : Str
  mood : Str
deriving DecidableEq, Repr

/-- The typed engine state consumed by the respond pipeline: the
character name and the mood-to-template dict (speech_patterns), with the
types the source annotates on lines 35 and 37 (which Python itself never
checks; see the loader section). -/
structure SoloEngine where
  name : Str
  templates : List (Str × Str)
deriving DecidableEq, Repr

/-- SoloEngine.respond: detect the mood, choose the template, format it
with the character name and the verbatim user message. -/
def SoloEngine.respond (e : SoloEngine) (user_msg : Str) : Except FormatError Reply :=
  let mood := detect_mood user_msg
  (pyFormat (selectTemplate e.templates mood) e.name user_msg).map
    (fun r => { reply := r, mood := mood })

/-- SoloEngine.reset: the body is a bare return; nothing is touched. -/
def SoloEngine.reset (e : SoloEngine) : SoloEngine := e

deriving instance DecidableEq for Except

/-- A parsed YAML document, restricted to the shapes the character file
uses: strings and string-keyed mappings. -/
inductive Yaml where
  | str (s : Str)
  | dict (entries : List (Str × Yaml))

/-- The ConfigError family of the loader: ioError models open or
yaml.safe_load raising (unreadable or malformed source), missingTopKey the
ValueError raised by the key check in from_yaml, badValue the KeyError or
TypeError raised by a field access in SoloEngine.__init__. -/
inductive LoadError where
  | ioError
  | missingTopKey (k : Str)
  | badValue (k : Str)
deriving DecidableEq, Repr

/-- Python dict[key] lookup on a parsed YAML mapping. -/
def yDictGet : List (Str × Yaml) → Str → Option Yaml
  | [], _ => none
  | (k, v) :: rest, key => if k = key then some v else yDictGet rest key

/-- Python (key in data): key membership on a dict, substring containment
on a string. -/
def pyIn (key : Str) : Yaml → Bool
  | .dict entries => (yDictGet entries key).isSome
  | .str s => containsStr key s

/-- SoloEngine.__init__ as executed: char_data must be subscriptable by a
string key (a str raises TypeError), basic_info must be a mapping (a str
value raises TypeError) holding a name key (else KeyError); the name value
and the speech_patterns value are then stored entirely unchecked - the
str and Dict[str, str] annotations on lines 35 and 37 are not enforced.
The result is the raw (name value, speech_patterns value) pair stored on
the object. -/
def SoloEngine.initPy : Yaml → Except LoadError (Yaml × Yaml)
  | .dict entries =>
    match yDictGet entries (str "basic_info") with
    | some (.dict bi) =>
      match yDictGet bi (str "name") with
      | some nmv =>
        match yDictGet entries (str "speech_patterns") with
        | some spv => .ok (nmv, spv)
        | none => .error (.badValue (str "speech_patterns"))
      | none => .error (.badValue (str "name"))
    | _ => .error (.badValue (str "basic_info"))
  | .str _ => .error (.badValue (str "basic_info"))

/-- SoloEngine.from_yaml as executed: none models a source that could not
be opened or parsed; otherwise the two required top-level keys are checked
in order (ValueError when one is absent) and __init__ stores the two
values unchecked. -/
def from_yaml_py : Option Yaml → Except LoadError (Yaml × Yaml)
  | none => .error .ioError
  | some data =>
    if pyIn (str "basic_info") data then
      if pyIn (str "speech_patterns") data then SoloEngine.initPy data
      else .error (.missingTopKey (str "speech_patterns"))
    else .error (.missingTopKey (str "basic_info"))

/-- Read a YAML mapping as the Dict[str, str] that SoloEngine.templates is
declared (but never checked) to be; a value of any other shape is rejected
here, whereas Python stores it unchecked and fails only at first use of
that template, or never if its key is not a detected mood. -/
def strDictOf : List (Str × Yaml) → Option (List (Str × Str))
  | [] => some []
  | (k, .str v) :: rest => (strDictOf rest).map (fun d => (k, v) :: d)
  | (_, .dict _) :: _ => none

/-- The well-typed restriction of __init__, NOT its runtime behavior: it
builds the typed engine that the respond pipeline consumes, and therefore
additionally demands that the name value be a string and the
speech_patterns value be a string-valued mapping - checks Python does not
perform (SoloEngine.initPy above is the construction as executed;
from_yaml_typed_iff below proves that this restriction succeeds exactly
when the executed construction succeeds with well-typed values). -/
def SoloEngine.initChecked : Yaml → Except LoadError SoloEngine
  | .dict entries =>
    match yDictGet entries (str "basic_info") with
    | some (.dict bi) =>
      match yDictGet bi (str "name") with
      | some (.str nm) =>
        match yDictGet entries (str "speech_patterns") with
        | some (.dict sp) =>
          match strDictOf sp with
          | some tm => .ok ⟨nm, tm⟩
          | none => .error (.badValue (str "speech_patterns"))
        | _ => .error (.badValue (str "speech_patterns"))
      | _ => .error (.badValue (str "name"))
    | _ => .error (.badValue (str "basic_info"))
  | _ => .error (.badValue (str "basic_info"))

/-- The loader restricted to well-typed configurations: the same required
key checks as from_yaml_py, followed by the typed construction.  This is
the engine source of the typed respond pipeline; from_yaml_py is the
loader as executed, and from_yaml_typed_iff relates the two. -/
def from_yaml : Option Yaml → Except LoadError SoloEngine
  | none => .error .ioError
  | some data =>
    if pyIn (str "basic_info") data then
      if pyIn (str "speech_patterns") data then SoloEngine.initChecked data
      else .error (.missingTopKey (str "speech_patterns"))
    else .error (.missingTopKey (str "basic_info"))

/-- The module-level _load_engine: the lazily initialised singleton.  The
state is the global _engine variable; the pair returned is (call result,
state after the call).  A cached engine is returned without touching the
source (the src argument is not consulted in that branch). -/
def load_engine (src : Option Yaml) :
    Option SoloEngine → Except LoadError SoloEngine × Option SoloEngine
  | some e => (.ok e, some e)
  | none =>
    match from_yaml src with
    | .ok e => (.ok e, some e)
    | .error err => (.error err, none)

/-- An error surfaced by a route handler: a load failure or a format
failure, both propagated to the HTTP layer unmodified. -/
inductive ApiError where
  | config (e : LoadError)
  | format (e : FormatError)
deriving DecidableEq, Repr

/-- The POST /respond handler: load (or reuse) the engine, then respond.
Returns the response and the _engine state after the call. -/
def api_respond (src : Option Yaml) (st : Option SoloEngine) (msg : Str) :
    Except ApiError Reply × Option SoloEngine :=
  match load_engine src st with
  | (.error e, stA) => (.error (.config e), stA)
  | (.ok eng, stA) =>
    match eng.respond msg with
    | .error f => (.error (.format f), stA)
    | .ok r => (.ok r, stA)

/-- The POST /reset handler: load (or reuse) the engine and call reset on
it; the stored engine afterwards is the reset one. -/
def api_reset (src : Option Yaml) (st : Option SoloEngine) :
    Except ApiError Unit × Option SoloEngine :=
  match load_engine src st with
  | (.error e, stA) => (.error (.config e), stA)
  | (.ok eng, _) => (.ok (), some (SoloEngine.reset eng))

/-- Modelled from the spec: the template-selection rule exactly as section
4.3 words it, for comparison with selectTemplate.  Look up the mood; if
absent fall back to neutral; if that is also absent fall back to the
literal default pattern.  (The spec writes the message placeholder
abstractly; the concrete field name in the code is msg.) -/
def selectTemplate_spec (tmpls : List (Str × Str)) (mood : Str) : Str :=
  match dictGet tmpls mood with
  | some t => t
  | none =>
    match dictGet tmpls (str "neutral") with
    | some t => t
    | none => str "{msg}"

/-- Modelled from the spec, amended: as selectTemplate_spec, except that a
mood template that is present but empty is also passed over in favour of
the neutral template (which is used even when itself empty). -/
def selectTemplate_amended (tmpls : List (Str × Str)) (mood : Str) : Str :=
  match dictGet tmpls mood with
  | some t =>
    if t = [] then
      match dictGet tmpls (str "neutral") with
      | some u => u
      | none => str "{msg}"
    else t
  | none =>
    match dictGet tmpls (str "neutral") with
    | some u => u
    | none => str "{msg}"

/-- The profile of the spec scenarios: Damian with a neutral and an
angry template. -/
def damian : SoloEngine :=
  ⟨str "Damian",
   [(str "neutral", str "{name} says: {msg}"), (str "angry", str "{name} snaps: {msg}")]⟩

/-- The Damian profile as a configuration document. -/
def damianYaml : Yaml :=
  .dict
    [(str "basic_info", .dict [(str "name", .str (str "Damian"))]),
     (str "speech_patterns",
      .dict
        [(str "neutral", .str (str "{name} says: {msg}")),
         (str "angry", .str (str "{name} snaps: {msg}"))])]

/-- A configuration document missing speech_patterns. -/
def cfgNoSpeech : Yaml :=
  .dict [(str "basic_info", .dict [(str "name", .str (str "Damian"))])]

/-- A configuration document whose basic_info lacks a name field. -/
def cfgNoName : Yaml :=
  .dict [(str "basic_info", .dict []), (str "speech_patterns", .dict [])]

/-- A configuration document that is well formed in the sense of the key
checks but ill typed: one speech_patterns value is a nested mapping.
Python loads it without complaint (and serves every request, since its
extra key is never a detected mood). -/
def cfgUnchecked : Yaml :=
  .dict
    [(str "basic_info", .dict [(str "name", .str (str "Damian"))]),
     (str "speech_patterns",
      .dict
        [(str "neutral", .str (str "hi {msg}")),
         (str "meta", .dict [(str "author", .str (str "x"))])])]

/-- A template mapping whose angry template is present but empty. -/
def emptyAngryTemplates : List (Str × Str) :=
  [(str "angry", []), (str "neutral", str "N:{msg}")]

/-- An engine whose only template names an unrecognised placeholder. -/
def oopsEngine : SoloEngine := ⟨str "X", [(str "neutral", str "{oops}")]⟩

/-- An engine whose happy and neutral templates are both empty. -/
def emptyBothEngine : SoloEngine :=
  ⟨str "X", [(str "happy", []), (str "neutral", [])]⟩

/-! Helper lemmas shared by the claim theorems. -/

theorem exmapmap {ε α β γ : Type} (f : α → β) (g : β → γ) (x : Except ε α) :
    (x.map f).map g = x.map (fun a => g (f a)) := by
  cases x <;> rfl

theorem exmap_congr {ε α β : Type} (f g : α → β) (x : Except ε α)
    (h : ∀ a, f a = g a) : x.map f = x.map g := by
  cases x <;> simp [Except.map, h]

/-- The single format scan equals parsing followed by substitution. -/
theorem fmtGo_eq_parseGo (name msg : Str) (st : Option Str) (t : Str) :
    fmtGo name msg st t = (parseGo st t).map (renderPieces name msg) := by
  induction st, t using parseGo.induct with
  | case1 => rfl
  | case2 rest ih =>
    simp only [fmtGo, parseGo, ih, exmapmap]
    exact exmap_congr _ _ _ (fun ps => rfl)
  | case3 rest ih =>
    simp only [fmtGo, parseGo, ih, exmapmap]
    exact exmap_congr _ _ _ (fun ps => rfl)
  | case4 rest h ih => simpa only [fmtGo, parseGo] using ih
  | case5 rest h => simp only [fmtGo, parseGo]; rfl
  | case6 c rest h1 h2 h3 h4 ih =>
    simp only [fmtGo, parseGo]
    rw [ih, exmapmap, exmapmap]
    exact exmap_congr _ _ _ (fun ps => rfl)
  | case7 acc => rfl
  | case8 acc rest h ih =>
    simp only [fmtGo, parseGo, h, if_true]
    rw [ih, exmapmap, exmapmap]
    exact exmap_congr _ _ _ (fun ps => rfl)
  | case9 acc rest h1 h2 ih =>
    simp only [fmtGo, parseGo, h2, eq_self_iff_true, if_true]
    rw [if_neg (by decide : ¬ (str "msg" = str "name")),
        if_neg (by decide : ¬ (str "msg" = str "name")),
        ih, exmapmap, exmapmap]
    exact exmap_congr _ _ _ (fun ps => rfl)
  | case10 acc rest h1 h2 =>
    simp only [fmtGo, parseGo]
    rw [if_neg h1, if_neg h1, if_neg h2, if_neg h2]
    rfl
  | case11 acc c rest h ih =>
    simp only [fmtGo, parseGo]
    exact ih

theorem pyFormat_eq_parse (tmpl name msg : Str) :
    pyFormat tmpl name msg = (parseTemplate tmpl).map (renderPieces name msg) :=
  fmtGo_eq_parseGo name msg none tmpl

theorem startsWithStr_append (p t : Str) : startsWithStr p (p ++ t) = true := by
  induction p with
  | nil => rfl
  | cons c cs ih => simp [startsWithStr, ih]

theorem containsStr_here (p t : Str) : containsStr p (p ++ t) = true := by
  cases p with
  | nil => cases t <;> simp [containsStr, startsWithStr]
  | cons c cs =>
    simp only [containsStr, Bool.or_eq_true]
    exact Or.inl (startsWithStr_append (c :: cs) t)

theorem containsStr_cons (p : Str) (c : Char) (t : Str) :
    containsStr p t = true → containsStr p (c :: t) = true := by
  intro h
  simp [containsStr, h]

theorem containsStr_append_left (p s t : Str) :
    containsStr p t = true → containsStr p (s ++ t) = true := by
  induction s with
  | nil => exact fun h => h
  | cons c cs ih => intro h; exact containsStr_cons p c (cs ++ t) (ih h)

/-- A rendering of pieces that mention the msg field contains msg. -/
theorem renderPieces_contains (n m : Str) (ps : List Piece) :
    Piece.pmsg ∈ ps → containsStr m (renderPieces n m ps) = true := by
  induction ps with
  | nil => intro h; cases h
  | cons p ps ih =>
    intro h
    cases p with
    | lit c =>
      have hm : Piece.pmsg ∈ ps := by
        cases h with
        | tail _ h2 => exact h2
      exact containsStr_cons m c _ (ih hm)
    | pname =>
      have hm : Piece.pmsg ∈ ps := by
        cases h with
        | tail _ h2 => exact h2
      exact containsStr_append_left m n _ (ih hm)
    | pmsg => exact containsStr_here m (renderPieces n m ps)

/-- Success condition of the typed construction on a parsed mapping. -/
theorem initChecked_dict_ok_iff (entries : List (Str × Yaml)) :
    (SoloEngine.initChecked (Yaml.dict entries)).isOk = true ↔
      ∃ bi nm sp tm,
        yDictGet entries (str "basic_info") = some (Yaml.dict bi) ∧
        yDictGet bi (str "name") = some (Yaml.str nm) ∧
        yDictGet entries (str "speech_patterns") = some (Yaml.dict sp) ∧
        strDictOf sp = some tm := by
  simp only [SoloEngine.initChecked]
  constructor
  · intro h
    repeat' split at h
    all_goals
      first
        | exact ⟨_, _, _, _, by assumption, by assumption, by assumption, by assumption⟩
        | (simp [Except.toBool] at h)
  · rintro ⟨bi, nm, sp, tm, h1, h2, h3, h4⟩
    simp [h1, h2, h3, h4, Except.isOk, Except.toBool]

theorem initChecked_ok_requires_keys (data : Yaml) :
    (SoloEngine.initChecked data).isOk = true →
      pyIn (str "basic_info") data = true ∧ pyIn (str "speech_patterns") data = true := by
  intro h
  cases data with
  | str s => simp [SoloEngine.initChecked, Except.isOk, Except.toBool] at h
  | dict entries =>
    rcases (initChecked_dict_ok_iff entries).mp h with ⟨bi, nm, sp, tm, h1, h2, h3, h4⟩
    simp [pyIn, h1, h3]

/-- Success condition of the typed (restricted) loader. -/
theorem from_yaml_ok_iff (src : Option Yaml) :
    (from_yaml src).isOk = true ↔
      ∃ entries bi nm sp tm,
        src = some (Yaml.dict entries) ∧
        yDictGet entries (str "basic_info") = some (Yaml.dict bi) ∧
        yDictGet bi (str "name") = some (Yaml.str nm) ∧
        yDictGet entries (str "speech_patterns") = some (Yaml.dict sp) ∧
        strDictOf sp = some tm := by
  cases src with
  | none =>
    constructor
    · intro h; simp [from_yaml, Except.isOk, Except.toBool] at h
    · rintro ⟨entries, bi, nm, sp, tm, hsrc, h⟩; cases hsrc
  | some data =>
    constructor
    · intro h
      simp only [from_yaml] at h
      by_cases hb : pyIn (str "basic_info") data = true
      · by_cases hs : pyIn (str "speech_patterns") data = true
        · rw [if_pos hb, if_pos hs] at h
          cases data with
          | str s => simp [SoloEngine.initChecked, Except.isOk, Except.toBool] at h
          | dict entries =>
            rcases (initChecked_dict_ok_iff entries).mp h with ⟨bi, nm, sp, tm, h1, h2, h3, h4⟩
            exact ⟨entries, bi, nm, sp, tm, rfl, h1, h2, h3, h4⟩
        · rw [if_pos hb, if_neg hs] at h
          simp [Except.isOk, Except.toBool] at h
      · rw [if_neg hb] at h
        simp [Except.isOk, Except.toBool] at h
    · rintro ⟨entries, bi, nm, sp, tm, hsrc, h1, h2, h3, h4⟩
      cases hsrc
      have hok : (SoloEngine.initChecked (Yaml.dict entries)).isOk = true :=
        (initChecked_dict_ok_iff entries).mpr ⟨bi, nm, sp, tm, h1, h2, h3, h4⟩
      have hkeys := initChecked_ok_requires_keys (Yaml.dict entries) hok
      simp only [from_yaml]
      rw [if_pos hkeys.1, if_pos hkeys.2]
      exact hok

/-- Success condition of the executed construction on a parsed mapping:
only presence of the fields is required, their values are unconstrained. -/
theorem initPy_dict_ok_iff (entries : List (Str × Yaml)) :
    (SoloEngine.initPy (Yaml.dict entries)).isOk = true ↔
      ∃ bi nmv spv,
        yDictGet entries (str "basic_info") = some (Yaml.dict bi) ∧
        yDictGet bi (str "name") = some nmv ∧
        yDictGet entries (str "speech_patterns") = some spv := by
  simp only [SoloEngine.initPy]
  constructor
  · intro h
    repeat' split at h
    all_goals
      first
        | exact ⟨_, _, _, by assumption, by assumption, by assumption⟩
        | (simp [Except.toBool] at h)
  · rintro ⟨bi, nmv, spv, h1, h2, h3⟩
    simp [h1, h2, h3, Except.isOk, Except.toBool]

/-- Evaluation of the executed loader on a source whose keys are present. -/
theorem from_yaml_py_eval (entries bi : List (Str × Yaml)) (nmv spv : Yaml)
    (h1 : yDictGet entries (str "basic_info") = some (Yaml.dict bi))
    (h2 : yDictGet bi (str "name") = some nmv)
    (h3 : yDictGet entries (str "speech_patterns") = some spv) :
    from_yaml_py (some (Yaml.dict entries)) = .ok (nmv, spv) := by
  have hb : pyIn (str "basic_info") (Yaml.dict entries) = true := by simp [pyIn, h1]
  have hs : pyIn (str "speech_patterns") (Yaml.dict entries) = true := by simp [pyIn, h3]
  simp only [from_yaml_py]
  rw [if_pos hb, if_pos hs]
  simp only [SoloEngine.initPy, h1, h2, h3]

/-- Success condition of the loader as executed. -/
theorem from_yaml_py_ok_iff (src : Option Yaml) :
    (from_yaml_py src).isOk = true ↔
      ∃ entries bi nmv spv,
        src = some (Yaml.dict entries) ∧
        yDictGet entries (str "basic_info") = some (Yaml.dict bi) ∧
        yDictGet bi (str "name") = some nmv ∧
        yDictGet entries (str "speech_patterns") = some spv := by
  cases src with
  | none =>
    constructor
    · intro h; simp [from_yaml_py, Except.isOk, Except.toBool] at h
    · rintro ⟨entries, bi, nmv, spv, hsrc, h⟩; cases hsrc
  | some data =>
    constructor
    · intro h
      simp only [from_yaml_py] at h
      by_cases hb : pyIn (str "basic_info") data = true
      · by_cases hs : pyIn (str "speech_patterns") data = true
        · rw [if_pos hb, if_pos hs] at h
          cases data with
          | str s => simp [SoloEngine.initPy, Except.isOk, Except.toBool] at h
          | dict entries =>
            rcases (initPy_dict_ok_iff entries).mp h with ⟨bi, nmv, spv, h1, h2, h3⟩
            exact ⟨entries, bi, nmv, spv, rfl, h1, h2, h3⟩
        · rw [if_pos hb, if_neg hs] at h
          simp [Except.isOk, Except.toBool] at h
      · rw [if_neg hb] at h
        simp [Except.isOk, Except.toBool] at h
    · rintro ⟨entries, bi, nmv, spv, hsrc, h1, h2, h3⟩
      cases hsrc
      rw [from_yaml_py_eval entries bi nmv spv h1 h2 h3]
      rfl

/-- The typed loader is the executed loader restricted to well-typed
values: it succeeds exactly when from_yaml_py succeeds with a string name
and a string-valued speech_patterns mapping. -/
theorem from_yaml_typed_iff (src : Option Yaml) :
    (from_yaml src).isOk = true ↔
      ∃ nm spd tm,
        from_yaml_py src = .ok (Yaml.str nm, Yaml.dict spd) ∧
        strDictOf spd = some tm := by
  rw [from_yaml_ok_iff]
  constructor
  · rintro ⟨entries, bi, nm, sp, tm, rfl, h1, h2, h3, h4⟩
    exact ⟨nm, sp, tm,
      from_yaml_py_eval entries bi (Yaml.str nm) (Yaml.dict sp) h1 h2 h3, h4⟩
  · rintro ⟨nm, spd, tm, hok, htm⟩
    have hka : (from_yaml_py src).isOk = true := by rw [hok]; rfl
    rcases (from_yaml_py_ok_iff src).mp hka with ⟨entries, bi, nmv, spv, rfl, h1, h2, h3⟩
    have he := from_yaml_py_eval entries bi nmv spv h1 h2 h3
    rw [he] at hok
    injection hok with hpair
    rw [Prod.mk.injEq] at hpair
    obtain ⟨hn, hs2⟩ := hpair
    subst hn
    subst hs2
    exact ⟨entries, bi, nm, spd, tm, rfl, h1, h2, h3, htm⟩

/-- The actual template selection equals the amended fallback policy. -/
theorem selectTemplate_eq_amended (tmpls : List (Str × Str)) (mood : Str) :
    selectTemplate tmpls mood = selectTemplate_amended tmpls mood := by
  unfold selectTemplate selectTemplate_amended pyOrStr
  cases dictGet tmpls mood with
  | none => cases dictGet tmpls (str "neutral") <;> simp [Option.getD]
  | some t =>
    by_cases ht : t = [] <;> cases dictGet tmpls (str "neutral") <;>
      simp [ht, Option.getD]

/-! The claim theorems. -/

/-- C1: for every message, _detect_mood performs a case-insensitive (via
lowering) substring match against the fixed anger keyword list and the
fixed happiness keyword list: it returns "angry" exactly when some anger
keyword occurs in the lowered message (so a message containing both an
anger and a happiness keyword is classified "angry" - anger is checked
first), otherwise "happy" exactly when some happiness keyword occurs,
otherwise "neutral". -/
theorem detect_mood_keyword_rules (msg : Str) :
    (detect_mood msg = str "angry" ↔
      ∃ k ∈ angerKeywords, containsStr k (pyLower msg) = true) ∧
    (detect_mood msg = str "happy" ↔
      ((∃ k ∈ happyKeywords, containsStr k (pyLower msg) = true) ∧
        ¬ ∃ k ∈ angerKeywords, containsStr k (pyLower msg) = true)) ∧
    (detect_mood msg = str "neutral" ↔
      ((¬ ∃ k ∈ angerKeywords, containsStr k (pyLower msg) = true) ∧
        ¬ ∃ k ∈ happyKeywords, containsStr k (pyLower msg) = true)) := by
  by_cases ha : angerKeywords.any (fun x => containsStr x (pyLower msg)) = true
  · have hd : detect_mood msg = str "angry" := by
      simp [detect_mood, ha]
    rw [hd]
    simp only [List.any_eq_true] at ha
    refine ⟨⟨fun _ => ha, fun _ => rfl⟩, ?_, ?_⟩
    · exact ⟨fun h => absurd h (by decide), fun h => absurd ha h.2⟩
    · exact ⟨fun h => absurd h (by decide), fun h => absurd ha h.1⟩
  · by_cases hh : happyKeywords.any (fun x => containsStr x (pyLower msg)) = true
    · have hd : detect_mood msg = str "happy" := by
        simp [detect_mood, ha, hh]
      rw [hd]
      simp only [List.any_eq_true] at ha hh
      refine ⟨?_, ?_, ?_⟩
      · exact ⟨fun h => absurd h (by decide), fun h => absurd h ha⟩
      · exact ⟨fun _ => ⟨hh, ha⟩, fun _ => rfl⟩
      · exact ⟨fun h => absurd h (by decide), fun h => absurd hh h.2⟩
    · have hd : detect_mood msg = str "neutral" := by
        simp [detect_mood, ha, hh]
      rw [hd]
      simp only [List.any_eq_true] at ha hh
      refine ⟨?_, ?_, ?_⟩
      · exact ⟨fun h => absurd h (by decide), fun h => absurd h ha⟩
      · exact ⟨fun h => absurd h (by decide), fun h => absurd h.1 hh⟩
      · exact ⟨fun _ => ⟨ha, hh⟩, fun _ => rfl⟩

/-- C2 counterexample: on a profile whose angry template is present but
empty, respond does not use the mood template the selection rule of the spec
chooses; the code falls through to the neutral template instead. -/
theorem respond_not_spec_selection :
    SoloEngine.respond ⟨str "D", emptyAngryTemplates⟩ (str "mad") ≠
      (pyFormat (selectTemplate_spec emptyAngryTemplates (detect_mood (str "mad")))
          (str "D") (str "mad")).map
        (fun r => { reply := r, mood := detect_mood (str "mad") }) := by
  decide

/-- C2 amended: the renderer looks the detected mood up in the template
mapping; if the entry is absent or the empty string it falls back to the
"neutral" template (used even when that one is empty); if "neutral" is
absent it falls back to the literal pattern of the msg placeholder; the
reply is the chosen template with the character name and the verbatim
user message substituted.  The "hello there" scenario of the spec holds. -/
theorem respond_fallback_amended (tmpls : List (Str × Str)) (mood : Str)
    (e : SoloEngine) (msg : Str) :
    selectTemplate tmpls mood = selectTemplate_amended tmpls mood ∧
    SoloEngine.respond e msg =
      (pyFormat (selectTemplate_amended e.templates (detect_mood msg)) e.name msg).map
        (fun r => { reply := r, mood := detect_mood msg }) ∧
    SoloEngine.respond damian (str "hello there") =
      .ok { reply := str "Damian says: hello there", mood := str "neutral" } := by
  refine ⟨selectTemplate_eq_amended tmpls mood, ?_, by decide⟩
  simp only [SoloEngine.respond]
  rw [selectTemplate_eq_amended]

/-- C3: the loader fails with a ConfigError exactly when the source is
unreadable or malformed (not a mapping), or its basic_info does not hold
a name field, or speech_patterns is absent; otherwise it yields the
loaded profile, whose name and speech_patterns values Python stores
unchecked.  In particular a source missing speech_patterns fails, so does
one whose basic_info lacks a name field, while a source whose
speech_patterns holds an ill-typed value still loads. -/
theorem from_yaml_py_required_keys :
    (∀ src : Option Yaml,
      (from_yaml_py src).isOk = true ↔
        ∃ entries bi nmv spv,
          src = some (Yaml.dict entries) ∧
          yDictGet entries (str "basic_info") = some (Yaml.dict bi) ∧
          yDictGet bi (str "name") = some nmv ∧
          yDictGet entries (str "speech_patterns") = some spv) ∧
    (from_yaml_py (some cfgNoSpeech)).isOk = false ∧
    (from_yaml_py (some cfgNoName)).isOk = false ∧
    (from_yaml_py (some cfgUnchecked)).isOk = true :=
  ⟨from_yaml_py_ok_iff, by decide, by decide, by decide⟩

/-- C4: when the selected template names an unrecognised placeholder, the
respond route surfaces the FormatError for that request and leaves the
loaded singleton engine untouched. -/
theorem respond_unknown_placeholder (e : SoloEngine) (msg f : Str) (src : Option Yaml)
    (h : parseTemplate (selectTemplate e.templates (detect_mood msg)) =
      .error (.unknownField f)) :
    api_respond src (some e) msg = (.error (.format (.unknownField f)), some e) := by
  have hresp : e.respond msg = .error (.unknownField f) := by
    simp only [SoloEngine.respond]
    rw [pyFormat_eq_parse, h]
    rfl
  simp only [api_respond, load_engine, hresp]

/-- C4 witness. -/
theorem respond_unknown_placeholder_witness :
    api_respond none (some oopsEngine) (str "hi") =
      (.error (.format (.unknownField (str "oops"))), some oopsEngine) :=
  respond_unknown_placeholder oopsEngine (str "hi") (str "oops") none (by decide)

/-- C5: whenever the selected template mentions the msg placeholder, the
formatted reply contains the user message as a literal substring. -/
theorem reply_contains_message (tmpls : List (Str × Str)) (mood name msg : Str)
    (ps : List Piece) (r : Str)
    (hp : parseTemplate (selectTemplate tmpls mood) = .ok ps)
    (hm : Piece.pmsg ∈ ps)
    (hr : pyFormat (selectTemplate tmpls mood) name msg = .ok r) :
    containsStr msg r = true := by
  rw [pyFormat_eq_parse, hp] at hr
  simp only [Except.map] at hr
  injection hr with hr
  rw [← hr]
  exact renderPieces_contains name msg ps hm

/-- C5 witness. -/
theorem reply_contains_message_witness :
    containsStr (str "hello there") (str "Damian says: hello there") = true :=
  reply_contains_message damian.templates (str "neutral") (str "Damian")
    (str "hello there")
    [Piece.pname, Piece.lit ' ', Piece.lit 's', Piece.lit 'a', Piece.lit 'y',
     Piece.lit 's', Piece.lit ':', Piece.lit ' ', Piece.pmsg]
    (str "Damian says: hello there") (by decide) (by decide) (by decide)

/-- C6: reset is total and has no observable effect: it returns the engine
unchanged, a respond after a reset gives the same result, the reset route
succeeds on a loaded engine, and a reset between two respond calls leaves
the second response identical. -/
theorem reset_noop (e : SoloEngine) (msg : Str) (src : Option Yaml)
    (st : Option SoloEngine) :
    SoloEngine.reset e = e ∧
    SoloEngine.respond (SoloEngine.reset e) msg = SoloEngine.respond e msg ∧
    (api_reset src (some e)).1 = .ok () ∧
    api_respond src (api_reset src st).2 msg = api_respond src st msg := by
  refine ⟨rfl, rfl, rfl, ?_⟩
  cases st with
  | some e2 => rfl
  | none =>
    cases h : from_yaml src with
    | ok e2 => simp [api_reset, load_engine, api_respond, h, SoloEngine.reset]
    | error err => simp [api_reset, load_engine, api_respond, h]

/-- C7: the singleton loader reads the source on first call and caches the
engine on success; any later call returns the cached engine, consults no
source, and never replaces the reference. -/
theorem load_engine_singleton (src srcB : Option Yaml) (e : SoloEngine) :
    load_engine src none = (from_yaml src, (from_yaml src).toOption) ∧
    load_engine srcB (some e) = (.ok e, some e) := by
  refine ⟨?_, rfl⟩
  cases h : from_yaml src <;> simp [load_engine, h, Except.toOption]

/-- C8: loading is deterministic: two successful loads of the same source
agree on the character name and the template mapping. -/
theorem from_yaml_deterministic (src : Option Yaml) (e1 e2 : SoloEngine)
    (h1 : from_yaml src = .ok e1) (h2 : from_yaml src = .ok e2) :
    e1.name = e2.name ∧ e1.templates = e2.templates := by
  rw [h1] at h2
  injection h2 with h
  rw [h]
  exact ⟨rfl, rfl⟩

/-- C8 witness. -/
theorem from_yaml_deterministic_witness :
    damian.name = damian.name ∧ damian.templates = damian.templates :=
  from_yaml_deterministic (some damianYaml) damian damian (by decide) (by decide)

/-- C9: a mood template that is present but empty is falsy, so the lookup
falls through to the neutral-or-default fallback; a neutral template that
is present but empty is used as-is and yields an empty reply. -/
theorem empty_template_falsy (tmpls : List (Str × Str)) (mood : Str)
    (e : SoloEngine) (msg : Str) :
    (dictGet tmpls mood = some [] →
      selectTemplate tmpls mood = (dictGet tmpls (str "neutral")).getD (str "{msg}")) ∧
    (dictGet e.templates (detect_mood msg) = some [] →
      dictGet e.templates (str "neutral") = some [] →
      SoloEngine.respond e msg = .ok { reply := [], mood := detect_mood msg }) := by
  constructor
  · intro h
    simp [selectTemplate, h, pyOrStr]
  · intro h1 h2
    have hsel : selectTemplate e.templates (detect_mood msg) = [] := by
      simp [selectTemplate, h1, h2, pyOrStr, Option.getD]
    simp only [SoloEngine.respond]
    rw [hsel]
    rfl

/-- C9 witness. -/
theorem empty_template_falsy_witness :
    (selectTemplate emptyBothEngine.templates (str "happy") =
      (dictGet emptyBothEngine.templates (str "neutral")).getD (str "{msg}")) ∧
    SoloEngine.respond emptyBothEngine (str "love") =
      .ok { reply := [], mood := detect_mood (str "love") } :=
  ⟨(empty_template_falsy emptyBothEngine.templates (str "happy") emptyBothEngine
      (str "love")).1 (by decide),
   (empty_template_falsy emptyBothEngine.templates (str "happy") emptyBothEngine
      (str "love")).2 (by decide) (by decide)⟩

/-- C10: formatting substitutes into the template in a single pass - it
equals parsing the template once and splicing name and msg verbatim into
the parsed pieces - so whether a call fails never depends on the message,
and a message that looks like a placeholder is copied literally. -/
theorem format_single_pass (tmpl name msg msgB : Str) :
    pyFormat tmpl name msg = (parseTemplate tmpl).map (renderPieces name msg) ∧
    (pyFormat tmpl name msg).isOk = (pyFormat tmpl name msgB).isOk ∧
    pyFormat (str "{name} says: {msg}") (str "D") (str "{name}") =
      .ok (str "D says: {name}") := by
  refine ⟨pyFormat_eq_parse tmpl name msg, ?_, by decide⟩
  rw [pyFormat_eq_parse tmpl name msg, pyFormat_eq_parse tmpl name msgB]
  cases parseTemplate tmpl <;> rfl

/-- C1 witness. -/
theorem detect_mood_keyword_rules_witness :
    detect_mood (str "I love it but I am ANGRY") = str "angry" :=
  (detect_mood_keyword_rules (str "I love it but I am ANGRY")).1.mpr
    ⟨str "angry", by decide, by decide⟩

/-- C3 witness. -/
theorem from_yaml_py_required_keys_witness :
    ∃ entries bi nmv spv,
      some cfgUnchecked = some (Yaml.dict entries) ∧
      yDictGet entries (str "basic_info") = some (Yaml.dict bi) ∧
      yDictGet bi (str "name") = some nmv ∧
      yDictGet entries (str "speech_patterns") = some spv :=
  (from_yaml_py_required_keys.1 (some cfgUnchecked)).mp (by decide)
